import Mathlib

/-!
Verification of the SageMaker vector-store microservice inference module
(`src/inference.py`).  The module supplies the four SageMaker hosting hooks:

* `model_fn`   – build the BGE embedding function and load the FAISS store;
* `input_fn`   – decode a JSON request body, rejecting non-JSON content types;
* `predict_fn` – delegate to the store's similarity search;
* `output_fn`  – serialise the ranked results into a JSON object keyed by rank.

The Python functions are embedded shallowly: external library calls
(`json.loads`, `FAISS.load_local`, `similarity_search`) are parameters of the
embedded functions, machine behaviour that can raise is modelled with
`Except` / `Option`, and Python's `json.dumps` is reproduced concretely for
the dictionary shapes the module produces.
-/

namespace Inference

/-- Python values produced by `json.loads` / consumed by `json.dumps`. -/
inductive Json where
  | null : Json
  | bool (b : Bool) : Json
  | num (n : Int) : Json
  | str (s : String) : Json
  | arr (xs : List Json) : Json
  | obj (fields : List (String × Json)) : Json

/-- Exceptions the embedded Python code can raise. -/
inductive PyError where
  | valueError (msg : String)
  | jsonDecodeError
  | keyError (key : String)
  | typeError
  | indexError
  deriving DecidableEq, Repr

/-! ### `json.dumps` (Python standard library, default options) -/

/-- One hexadecimal digit, lower case, as produced by CPython's encoder. -/
def hexDigit (n : Nat) : Char :=
  if n < 10 then Char.ofNat (48 + n) else Char.ofNat (87 + (n % 16))

/-- Four-digit hexadecimal rendering used in `\uXXXX` escapes. -/
def toHex4 (n : Nat) : String :=
  String.mk [hexDigit (n / 4096 % 16), hexDigit (n / 256 % 16),
             hexDigit (n / 16 % 16), hexDigit (n % 16)]

/-- Escape one character the way `json.dumps` (with the default
`ensure_ascii=True`) does. -/
def pyEscapeChar (c : Char) : String :=
  if c = '"' then "\\\""
  else if c = '\\' then "\\\\"
  else if c.toNat = 8 then "\\b"
  else if c.toNat = 9 then "\\t"
  else if c.toNat = 10 then "\\n"
  else if c.toNat = 12 then "\\f"
  else if c.toNat = 13 then "\\r"
  else if c.toNat < 32 then "\\u" ++ toHex4 c.toNat
  else if c.toNat < 127 then String.singleton c
  else if c.toNat ≤ 65535 then "\\u" ++ toHex4 c.toNat
  else
    let v := c.toNat - 65536
    "\\u" ++ toHex4 (55296 + v / 1024) ++ "\\u" ++ toHex4 (56320 + v % 1024)

/-- Escape a whole string for JSON output. -/
def pyEscapeString (s : String) : String :=
  String.join (s.toList.map pyEscapeChar)

mutual
/-- `json.dumps` with default separators (`", "` and `": "`). -/
def dumpJson : Json → String
  | .null => "null"
  | .bool true => "true"
  | .bool false => "false"
  | .num n => toString n
  | .str s => "\"" ++ pyEscapeString s ++ "\""
  | .arr xs => "[" ++ String.intercalate ", " (dumpJsonList xs) ++ "]"
  | .obj fs => "\x7b" ++ String.intercalate ", " (dumpJsonFields fs) ++ "\x7d"

def dumpJsonList : List Json → List String
  | [] => []
  | x :: xs => dumpJson x :: dumpJsonList xs

def dumpJsonFields : List (String × Json) → List String
  | [] => []
  | (k, v) :: fs =>
      ("\"" ++ pyEscapeString k ++ "\": " ++ dumpJson v) :: dumpJsonFields fs
end

/-- `json.dumps` applied to a Python `dict` with `int` keys: CPython
stringifies each integer key and keeps insertion order. -/
def pyJsonDumpsIntDict (d : List (Nat × Json)) : String :=
  dumpJson (.obj (d.map fun kv => (toString kv.1, kv.2)))

/-! ### External collaborators, as opaque-to-this-repo data -/

/-- The langchain `HuggingFaceBgeEmbeddings` object, recorded by the
configuration `model_fn` passes to its constructor (the model weights
themselves are outside this repository). -/
structure HuggingFaceBgeEmbeddings where
  model_name : String
  device : String
  normalize_embeddings : Bool
  query_instruction : String
  deriving DecidableEq, Repr

/-- A langchain `Document`: the text payload plus whatever metadata the
store attached to it. -/
structure Document where
  page_content : String
  metadata : List (String × Json) := []

/-- The loaded FAISS vector store: the embedding function it was bound to
and its similarity-search capability (an external black box, modelled as a
function from the raw query text and count values to the ranked result
list — or to an exception when the library itself fails, e.g. on
wrong-typed arguments). -/
structure FAISS where
  embedding_function : HuggingFaceBgeEmbeddings
  similarity_search : Json → Json → Except PyError (List Document)

/-- Python `str.startswith`, computed on the underlying character list. -/
def strStartsWith (s pre : String) : Bool :=
  pre.data.isPrefixOf s.data

/-- Python `str.endswith`, computed on the underlying character list. -/
def strEndsWith (s suf : String) : Bool :=
  suf.data.reverse.isPrefixOf s.data.reverse

/-- `os.path.join(a, b)` for the flavours of arguments the module uses. -/
def os_path_join (a b : String) : String :=
  if strStartsWith b "/" then b
  else if a = "" then b
  else if strEndsWith a "/" then a ++ b
  else a ++ "/" ++ b

/-! ### The four hooks of `src/inference.py` -/

/-- `model_fn(model_dir)`: construct the embedding function with its fixed
configuration and load the persisted FAISS index from the
`faiss_vector_store` subdirectory.  `load_local` stands for the external
`FAISS.load_local`. -/
def model_fn (load_local : String → HuggingFaceBgeEmbeddings → FAISS)
    (model_dir : String) : FAISS :=
  let hf : HuggingFaceBgeEmbeddings :=
    { model_name := "BAAI/bge-small-en-v1.5"
      device := "cpu"
      normalize_embeddings := false
      query_instruction := "Represent this sentence for searching relevant passages: " }
  let vs_path := os_path_join model_dir "faiss_vector_store"
  load_local vs_path hf

/-- `input_fn(request_body, request_content_type)`: only
`application/json` is accepted; the body is then handed to `json.loads`
(the external decoder `loads`, which fails exactly on malformed JSON). -/
def input_fn (loads : String → Option Json)
    (request_body : String) (request_content_type : String) :
    Except PyError Json :=
  if request_content_type = "application/json" then
    match loads request_body with
    | some v => .ok v
    | none => .error .jsonDecodeError
  else
    .error (.valueError "Content type must be application/json")

/-- Python subscript `value[key]` on a decoded JSON value: `KeyError` when
the key is absent from a dict, `TypeError` when the value is not a dict. -/
def Json.subscript : Json → String → Except PyError Json
  | .obj fields, key =>
      match fields.lookup key with
      | some v => .ok v
      | none => .error (.keyError key)
  | _, _ => .error .typeError

/-- `predict_fn(input_data, model)`: read `input_data['text']` and
`input_data['k']` and delegate to the store's similarity search.  The
delegate receives the decoded `text` and `k` values exactly as they
appear in the request; any failure on wrong-typed arguments happens
inside the delegate. -/
def predict_fn (input_data : Json) (model : FAISS) :
    Except PyError (List Document) := do
  let vs := model
  let t ← input_data.subscript "text"
  let k ← input_data.subscript "k"
  vs.similarity_search t k

/-- One step of the `for ind in range(len(predictions))` loop of
`output_fn`: `out_dict[ind] = predictions[ind].page_content`.  Assigning
to an existing key updates it in place; a new key is appended
(CPython dict semantics). -/
def dictSet (d : List (Nat × Json)) (k : Nat) (v : Json) : List (Nat × Json) :=
  if d.any (fun kv => kv.1 = k) then
    d.map (fun kv => if kv.1 = k then (k, v) else kv)
  else
    d ++ [(k, v)]

/-- The loop of `output_fn`, with Python's bounds-checked list indexing
made explicit: `none` models an `IndexError`. -/
def outLoop (predictions : List Document) :
    List (Nat × Json) → List Nat → Option (List (Nat × Json))
  | d, [] => some d
  | d, ind :: rest => do
      let doc ← predictions[ind]?
      outLoop predictions (dictSet d ind (.str doc.page_content)) rest

/-- `output_fn(predictions, content_type)`: pre-build
`dict(zip(range(n), range(n)))`, overwrite each slot with the record's
`page_content`, and `json.dumps` the result. -/
def output_fn (predictions : List Document) (content_type : String) :
    Option String := do
  let out_dict := (List.range predictions.length).map
    (fun i => ((i : Nat), Json.num (i : Int)))
  let final ← outLoop predictions out_dict (List.range predictions.length)
  return pyJsonDumpsIntDict final

/-- The text payload of the record at rank `i` (empty when out of range;
only ever used at in-range positions). -/
def pcAt (predictions : List Document) (i : Nat) : String :=
  match predictions[i]? with
  | some doc => doc.page_content
  | none => ""

/-- The full per-request path as SageMaker drives it:
decode → search → encode. -/
def handle (loads : String → Option Json) (model : FAISS)
    (body ct outCt : String) : Except PyError String :=
  match input_fn loads body ct with
  | .error e => .error e
  | .ok q =>
      match predict_fn q model with
      | .error e => .error e
      | .ok results =>
          match output_fn results outCt with
          | some s => .ok s
          | none => .error .indexError

/-- A sequence of requests served against the one loaded handle, in
order; each element of a request triple is (body, content type in,
content type out). -/
def serve (loads : String → Option Json) (model : FAISS) :
    List (String × String × String) → List (Except PyError String)
  | [] => []
  | (body, ct, outCt) :: rest =>
      handle loads model body ct outCt :: serve loads model rest

/-! ### Concrete instances used to exercise the theorems -/

/-- A small concrete store used to evaluate the hooks on closed inputs. -/
def demoStore : FAISS where
  embedding_function :=
    { model_name := "BAAI/bge-small-en-v1.5"
      device := "cpu"
      normalize_embeddings := false
      query_instruction := "Represent this sentence for searching relevant passages: " }
  similarity_search := fun t k =>
    match t, k with
    | .str _, .num n => .ok (List.replicate n.toNat { page_content := "passage" })
    | _, _ => .error .typeError

/-- A concrete stand-in for the external `FAISS.load_local`. -/
def demoLoadLocal : String → HuggingFaceBgeEmbeddings → FAISS :=
  fun _ hf => { embedding_function := hf, similarity_search := fun _ _ => .ok [] }

/-- A decoder that fails on every body (used on malformed-JSON inputs). -/
def loadsFail : String → Option Json := fun _ => none

/-- A decoder that decodes every body to the empty JSON object. -/
def loadsEmptyObj : String → Option Json := fun _ => some (Json.obj [])

/-- A concrete well-formed query object. -/
def demoQuery : Json := Json.obj [("text", Json.str "example query"), ("k", Json.num 2)]

/-! ## Helper lemmas -/

lemma string_append_assoc (a b c : String) : a ++ b ++ c = a ++ (b ++ c) := by
  apply String.ext
  simp [String.data_append]

lemma dictSet_range (n j : Nat) (g : Nat → Json) (v : Json) (hj : j < n) :
    dictSet ((List.range n).map fun i => (i, g i)) j v
      = (List.range n).map fun i => (i, if i = j then v else g i) := by
  have hany : (((List.range n).map fun i => ((i : Nat), g i)).any fun kv => kv.1 = j)
      = true := by
    rw [List.any_eq_true]
    exact ⟨(j, g j), List.mem_map_of_mem _ (List.mem_range.mpr hj), by simp⟩
  unfold dictSet
  rw [if_pos hany, List.map_map]
  refine List.map_congr_left fun i _ => ?_
  by_cases h : i = j
  · subst h; simp [Function.comp]
  · simp [Function.comp, h]

lemma outLoop_inv (preds : List Document) (m : Nat) :
    ∀ j, j + m = preds.length →
    outLoop preds
      ((List.range preds.length).map
        fun i => (i, if i < j then Json.str (pcAt preds i) else Json.num i))
      (List.range' j m)
    = some ((List.range preds.length).map fun i => (i, Json.str (pcAt preds i))) := by
  induction m with
  | zero =>
      intro j hj
      simp only [List.range', outLoop]
      congr 1
      refine List.map_congr_left fun i hi => ?_
      have : i < j := by
        have := List.mem_range.mp hi
        omega
      simp [this]
  | succ m ih =>
      intro j hj
      have hjn : j < preds.length := by omega
      have hdoc : preds[j]? = some preds[j] := List.getElem?_eq_getElem hjn
      rw [List.range'_succ]
      simp only [outLoop, hdoc, Option.bind_eq_bind', Option.some_bind']
      rw [dictSet_range _ _ _ _ hjn]
      have hfun :
          (fun i => ((i : Nat),
              if i = j then Json.str (preds[j].page_content)
              else if i < j then Json.str (pcAt preds i) else Json.num i))
          = fun i => ((i : Nat),
              if i < j + 1 then Json.str (pcAt preds i) else Json.num i) := by
        funext i
        by_cases h1 : i = j
        · subst h1
          simp [pcAt, hdoc]
        · by_cases h2 : i < j
          · simp [h1, h2, Nat.lt_succ_of_lt h2]
          · have h3 : ¬ i < j + 1 := by omega
            simp [h1, h2, h3]
      rw [hfun]
      exact ih (j + 1) (by omega)

lemma output_fn_eq (preds : List Document) (ct : String) :
    output_fn preds ct
      = some (pyJsonDumpsIntDict
          ((List.range preds.length).map fun i => (i, Json.str (pcAt preds i)))) := by
  have hinit :
      (fun i => ((i : Nat), Json.num (i : Int)))
      = fun i => ((i : Nat),
          if i < 0 then Json.str (pcAt preds i) else Json.num i) := by
    funext i
    simp
  have h0 := outLoop_inv preds preds.length 0 (by omega)
  rw [← List.range_eq_range'] at h0
  simp only [output_fn, hinit, h0, Option.bind_eq_bind', Option.some_bind']
  rfl

/-! ## Claim theorems -/

/-- Claim C1: for every ordered sequence of n result records, `output_fn`
produces a JSON object with exactly n keys, the string keys "0" through
"n-1", where key "i" maps to the text payload (`page_content`) of the
i-th record in rank order, and no other field of any record appears in
the output. -/
theorem output_fn_keys_are_rank_payloads (preds : List Document) (ct : String) :
    output_fn preds ct
      = some (dumpJson (Json.obj ((List.range preds.length).map
          fun i => (toString i, Json.str (pcAt preds i))))) := by
  rw [output_fn_eq]
  simp only [pyJsonDumpsIntDict, List.map_map]
  rfl

/-- Claim C2: for every request body and every declared content type other
than `application/json`, `input_fn` fails with the unsupported-media-type
`ValueError` and the request path produces that error for every store, so
no search is attempted. -/
theorem input_fn_rejects_non_json_content_type
    (loads : String → Option Json) (model : FAISS) (body ct outCt : String)
    (h : ct ≠ "application/json") :
    input_fn loads body ct
        = .error (.valueError "Content type must be application/json") ∧
    handle loads model body ct outCt
        = .error (.valueError "Content type must be application/json") := by
  have hin : input_fn loads body ct
      = .error (.valueError "Content type must be application/json") := by
    simp [input_fn, h]
  exact ⟨hin, by simp [handle, hin]⟩

/-- Witness for C2 at the concrete content type `text/plain`. -/
theorem input_fn_rejects_non_json_content_type_witness :
    ("text/plain" : String) ≠ "application/json" ∧
    (input_fn loadsFail "x" "text/plain"
        = .error (.valueError "Content type must be application/json") ∧
     handle loadsFail demoStore "x" "text/plain" "application/json"
        = .error (.valueError "Content type must be application/json")) :=
  ⟨by decide,
   input_fn_rejects_non_json_content_type loadsFail demoStore
     "x" "text/plain" "application/json" (by decide)⟩

/-- Claim C3: for every request body that is not valid JSON (the decoder
fails on it), `input_fn` under `application/json` fails with the parse
error, the whole request path fails with it, and the outcome is
independent of the store — the executor is never reached. -/
theorem input_fn_rejects_malformed_json
    (loads : String → Option Json) (body : String) (h : loads body = none)
    (model : FAISS) (outCt : String) :
    input_fn loads body "application/json" = .error .jsonDecodeError ∧
    handle loads model body "application/json" outCt = .error .jsonDecodeError ∧
    ∀ model' : FAISS,
      handle loads model body "application/json" outCt
        = handle loads model' body "application/json" outCt := by
  have hin : input_fn loads body "application/json" = .error .jsonDecodeError := by
    simp [input_fn, h]
  refine ⟨hin, by simp [handle, hin], fun model' => ?_⟩
  simp [handle, hin]

/-- Witness for C3 at the concrete malformed body. -/
theorem input_fn_rejects_malformed_json_witness :
    loadsFail "\x7btext:" = none ∧
    (input_fn loadsFail "\x7btext:" "application/json" = .error .jsonDecodeError ∧
     handle loadsFail demoStore "\x7btext:" "application/json" "application/json"
        = .error .jsonDecodeError ∧
     ∀ model' : FAISS,
       handle loadsFail demoStore "\x7btext:" "application/json" "application/json"
         = handle loadsFail model' "\x7btext:" "application/json" "application/json") :=
  ⟨rfl,
   input_fn_rejects_malformed_json loadsFail "\x7btext:" rfl
     demoStore "application/json"⟩

/-- Claim C4: for every valid-JSON body, `input_fn` returns the decoded
value unchanged — no field validation — and a defect in the `text`/`k`
fields surfaces only as `predict_fn`'s own failure, which the request path
propagates unchanged. -/
theorem input_fn_no_field_validation
    (loads : String → Option Json) (body : String) (j : Json)
    (h : loads body = some j) :
    input_fn loads body "application/json" = .ok j ∧
    ∀ (model : FAISS) (outCt : String) (e : PyError),
      predict_fn j model = .error e →
      handle loads model body "application/json" outCt = .error e := by
  have hin : input_fn loads body "application/json" = .ok j := by
    simp [input_fn, h]
  refine ⟨hin, fun model outCt e he => ?_⟩
  simp [handle, hin, he]

/-- Witness for C4: a body decoding to the empty JSON object passes
`input_fn` untouched, and the missing `text` field fails only at
`predict_fn` (a `KeyError` the request path propagates). -/
theorem input_fn_no_field_validation_witness :
    loadsEmptyObj "\x7b\x7d" = some (Json.obj []) ∧
    predict_fn (Json.obj []) demoStore = .error (.keyError "text") ∧
    handle loadsEmptyObj demoStore "\x7b\x7d" "application/json" "application/json"
      = .error (.keyError "text") :=
  ⟨rfl, rfl,
   (input_fn_no_field_validation loadsEmptyObj "\x7b\x7d" (Json.obj []) rfl).2
     demoStore "application/json" (.keyError "text") rfl⟩

/-- Claim C5: for every decoded query carrying `text` and `k` fields and
every loaded store, `predict_fn` returns exactly what the store's
similarity search returns on those values — no re-ranking, filtering or
truncation, and no bound imposed on `k`. -/
theorem predict_fn_delegates_search
    (j : Json) (model : FAISS) (t k : Json)
    (ht : j.subscript "text" = .ok t) (hk : j.subscript "k" = .ok k) :
    predict_fn j model = model.similarity_search t k := by
  simp only [predict_fn, ht, hk]
  rfl

/-- Witness for C5 at the concrete query object. -/
theorem predict_fn_delegates_search_witness :
    demoQuery.subscript "text" = .ok (.str "example query") ∧
    demoQuery.subscript "k" = .ok (.num 2) ∧
    predict_fn demoQuery demoStore
      = demoStore.similarity_search (.str "example query") (.num 2) :=
  ⟨rfl, rfl, predict_fn_delegates_search demoQuery demoStore _ _ rfl rfl⟩

/-- Claim C6: `model_fn` constructs the embedding function with the fixed
model identifier, CPU device, normalisation disabled and the fixed query
instruction, and loads the persisted index from the `faiss_vector_store`
subdirectory joined beneath `model_dir`, bound to that embedding
function. -/
theorem model_fn_fixed_configuration
    (load_local : String → HuggingFaceBgeEmbeddings → FAISS) (model_dir : String)
    (h1 : model_dir ≠ "") (h2 : strEndsWith model_dir "/" = false) :
    model_fn load_local model_dir
      = load_local (os_path_join model_dir "faiss_vector_store")
          { model_name := "BAAI/bge-small-en-v1.5"
            device := "cpu"
            normalize_embeddings := false
            query_instruction := "Represent this sentence for searching relevant passages: " } ∧
    os_path_join model_dir "faiss_vector_store"
      = model_dir ++ "/faiss_vector_store" := by
  refine ⟨rfl, ?_⟩
  unfold os_path_join
  rw [if_neg (by decide), if_neg h1, if_neg (by simp [h2]), string_append_assoc]
  congr 1

/-- Witness for C6 at the standard SageMaker model directory. -/
theorem model_fn_fixed_configuration_witness :
    ("/opt/ml/model" : String) ≠ "" ∧
    strEndsWith "/opt/ml/model" "/" = false ∧
    (model_fn demoLoadLocal "/opt/ml/model"
       = demoLoadLocal (os_path_join "/opt/ml/model" "faiss_vector_store")
           { model_name := "BAAI/bge-small-en-v1.5"
             device := "cpu"
             normalize_embeddings := false
             query_instruction := "Represent this sentence for searching relevant passages: " } ∧
     os_path_join "/opt/ml/model" "faiss_vector_store"
       = "/opt/ml/model" ++ "/faiss_vector_store") :=
  ⟨by decide, by decide,
   model_fn_fixed_configuration demoLoadLocal "/opt/ml/model" (by decide) (by decide)⟩

/-- Claim C7: `output_fn` applied to the empty result sequence produces
the empty JSON object. -/
theorem output_fn_empty_is_empty_object (ct : String) :
    output_fn [] ct = some "\x7b\x7d" :=
  rfl

/-- Claim C8: the loaded handle is read-only across the request path:
every request in a served sequence is answered against the one unchanged
store, each answer depending only on that store and the request itself,
with no state carried from one request to the next. -/
theorem request_path_read_only
    (loads : String → Option Json) (model : FAISS)
    (reqs : List (String × String × String)) :
    serve loads model reqs
      = reqs.map (fun r => handle loads model r.1 r.2.1 r.2.2) := by
  induction reqs with
  | nil => rfl
  | cons r rest ih =>
      obtain ⟨body, ct, outCt⟩ := r
      simp [serve, ih]

/-- Claim C9: `output_fn` does not depend on its `content_type` argument:
any two content types give identical results. -/
theorem output_fn_ignores_content_type
    (preds : List Document) (ct ct' : String) :
    output_fn preds ct = output_fn preds ct' :=
  rfl

/-- Claim C10: `output_fn` is total — on every finite list of result
records it succeeds (every list index used by its loop is in bounds, so
the modelled `IndexError` case never occurs). -/
theorem output_fn_total (preds : List Document) (ct : String) :
    (output_fn preds ct).isSome = true := by
  rw [output_fn_eq]
  rfl

end Inference
